/-
Verification of the LLM-firewall gateway core against its specification.

The definitions below are a shallow embedding of the JavaScript / SQL source:
  * SHA-256 (Node `crypto.createHash('sha256').update(data).digest('hex')`),
    implemented over UTF-8 bytes as lists of Nat mod 2^32;
  * `AuditLogger._hash` and `AuditLogger.log` (audit-logger module);
  * `PostgresClient.insertAuditLog` (pg-client module);
  * `RateLimiter._checkBucket` / `checkLimit` (rate-limiter module) over an
    explicit Redis counter state;
  * the rate-limit / audit Fastify hooks composed into one request pipeline;
  * the `/ready` route handler;
  * the chat-completions verdict branch;
  * `AnalyzerClient.checkContent` retry loop;
  * the `get_audit_stats` SQL routine (cross-join semantics included).

JavaScript nullable values are modelled as `Option`, JS string falsiness
(`!s` true for null / undefined / "") as explicit checks, JS numbers used by
the audited fields as `Nat` / `Rat`.
-/
import Mathlib

set_option maxRecDepth 10000

/-! ### SHA-256 over byte lists (Node crypto digest 'hex') -/

/-- Mask for 32-bit arithmetic. -/
def w32 : Nat := 4294967296

/-- Rotate-right of a 32-bit word. -/
def rotr (n x : Nat) : Nat := ((x >>> n) ||| (x <<< (32 - n))) % w32

/-- Bitwise choice function of SHA-256. -/
def shaCh (x y z : Nat) : Nat := (x &&& y) ^^^ ((x ^^^ 4294967295) &&& z)

/-- Bitwise majority function of SHA-256. -/
def shaMaj (x y z : Nat) : Nat := (x &&& y) ^^^ (x &&& z) ^^^ (y &&& z)

/-- Big sigma-0 of SHA-256. -/
def bigS0 (x : Nat) : Nat := rotr 2 x ^^^ rotr 13 x ^^^ rotr 22 x

/-- Big sigma-1 of SHA-256. -/
def bigS1 (x : Nat) : Nat := rotr 6 x ^^^ rotr 11 x ^^^ rotr 25 x

/-- Small sigma-0 of SHA-256. -/
def smallS0 (x : Nat) : Nat := rotr 7 x ^^^ rotr 18 x ^^^ (x >>> 3)

/-- Small sigma-1 of SHA-256. -/
def smallS1 (x : Nat) : Nat := rotr 17 x ^^^ rotr 19 x ^^^ (x >>> 10)

/-- The 64 SHA-256 round constants. -/
def shaK : List Nat :=
  [1116352408, 1899447441, 3049323471, 3921009573,
   961987163, 1508970993, 2453635748, 2870763221,
   3624381080, 310598401, 607225278, 1426881987,
   1925078388, 2162078206, 2614888103, 3248222580,
   3835390401, 4022224774, 264347078, 604807628,
   770255983, 1249150122, 1555081692, 1996064986,
   2554220882, 2821834349, 2952996808, 3210313671,
   3336571891, 3584528711, 113926993, 338241895,
   666307205, 773529912, 1294757372, 1396182291,
   1695183700, 1986661051, 2177026350, 2456956037,
   2730485921, 2820302411, 3259730800, 3345764771,
   3516065817, 3600352804, 4094571909, 275423344,
   430227734, 506948616, 659060556, 883997877,
   958139571, 1322822218, 1537002063, 1747873779,
   1955562222, 2024104815, 2227730452, 2361852424,
   2428436474, 2756734187, 3204031479, 3329325298]

/-- SHA-256 working state of eight 32-bit words. -/
structure Hash8 where
  a : Nat
  b : Nat
  c : Nat
  d : Nat
  e : Nat
  f : Nat
  g : Nat
  h : Nat
deriving DecidableEq, Repr

/-- Initial SHA-256 hash value. -/
def initH : Hash8 :=
  ⟨1779033703, 3144134277, 1013904242, 2773480762,
   1359893119, 2600822924, 528734635, 1541459225⟩

/-- One SHA-256 compression round. -/
def shaRound (st : Hash8) (kw : Nat × Nat) : Hash8 :=
  let t1 := (st.h + bigS1 st.e + shaCh st.e st.f st.g + kw.1 + kw.2) % w32
  let t2 := (bigS0 st.a + shaMaj st.a st.b st.c) % w32
  ⟨(t1 + t2) % w32, st.a, st.b, st.c, (st.d + t1) % w32, st.e, st.f, st.g⟩

/-- Parse a 64-byte block into its first sixteen 32-bit big-endian words. -/
def blockWords (bytes : List Nat) : List Nat :=
  (List.range 16).map fun i =>
    bytes.getD (4 * i) 0 * 16777216 + bytes.getD (4 * i + 1) 0 * 65536 +
      bytes.getD (4 * i + 2) 0 * 256 + bytes.getD (4 * i + 3) 0

/-- Extend sixteen words into the 64-word SHA-256 message schedule. -/
def extendSchedule (ws : List Nat) : List Nat :=
  (List.range 48).foldl
    (fun acc _ =>
      let n := acc.length
      let x := (smallS1 (acc.getD (n - 2) 0) + acc.getD (n - 7) 0 +
                smallS0 (acc.getD (n - 15) 0) + acc.getD (n - 16) 0) % w32
      acc ++ [x])
    ws

/-- Pairwise 32-bit addition of two hash states. -/
def addH (x y : Hash8) : Hash8 :=
  ⟨(x.a + y.a) % w32, (x.b + y.b) % w32, (x.c + y.c) % w32, (x.d + y.d) % w32,
   (x.e + y.e) % w32, (x.f + y.f) % w32, (x.g + y.g) % w32, (x.h + y.h) % w32⟩

/-- Compress one 64-byte block into the hash state. -/
def shaCompress (st : Hash8) (block : List Nat) : Hash8 :=
  let ws := extendSchedule (blockWords block)
  addH st ((shaK.zip ws).foldl shaRound st)

/-- Split a byte list into 64-byte chunks, structurally on a block-count fuel. -/
def chunksAux : Nat → List Nat → List (List Nat)
  | 0, _ => []
  | n + 1, l => l.take 64 :: chunksAux n (l.drop 64)

/-- Split a byte list into 64-byte chunks. -/
def chunks64 (l : List Nat) : List (List Nat) :=
  chunksAux ((l.length + 63) / 64) l

/-- SHA-256 padding: append 0x80, zeros to 56 mod 64, then the 64-bit
big-endian bit length. -/
def sha256Pad (msg : List Nat) : List Nat :=
  let L := msg.length
  let z := (120 - (L + 1) % 64) % 64
  msg ++ [128] ++ List.replicate z 0 ++
    ((List.range 8).map fun i => 8 * L / 2 ^ (8 * (7 - i)) % 256)

/-- Lowercase hexadecimal digit for a value below 16. -/
def hexDigit (n : Nat) : Char :=
  if n < 10 then Char.ofNat (48 + n) else Char.ofNat (87 + n)

/-- Render a 32-bit word as exactly eight lowercase hex characters. -/
def wordHex (x : Nat) : String :=
  String.mk ((List.range 8).map fun i => hexDigit (x / 16 ^ (7 - i) % 16))

/-- Render the final hash state as the 64-character hex digest. -/
def hash8Hex (st : Hash8) : String :=
  wordHex st.a ++ wordHex st.b ++ wordHex st.c ++ wordHex st.d ++
  wordHex st.e ++ wordHex st.f ++ wordHex st.g ++ wordHex st.h

/-- SHA-256 digest over the full padded message. -/
def sha256Words (bytes : List Nat) : Hash8 :=
  (chunks64 (sha256Pad bytes)).foldl shaCompress initH

/-- UTF-8 encoding of a single Unicode code point. -/
def utf8Bytes (c : Nat) : List Nat :=
  if c < 128 then [c]
  else if c < 2048 then [192 ||| (c >>> 6), 128 ||| (c &&& 63)]
  else if c < 65536 then
    [224 ||| (c >>> 12), 128 ||| ((c >>> 6) &&& 63), 128 ||| (c &&& 63)]
  else
    [240 ||| (c >>> 18), 128 ||| ((c >>> 12) &&& 63),
     128 ||| ((c >>> 6) &&& 63), 128 ||| (c &&& 63)]

/-- The UTF-8 byte sequence of a string. -/
def strBytes (s : String) : List Nat :=
  s.data.flatMap fun ch => utf8Bytes ch.toNat

/-- Hex SHA-256 digest of a string, over its UTF-8 bytes, as produced by
Node `createHash('sha256').update(s).digest('hex')`. -/
def sha256Hex (s : String) : String :=
  hash8Hex (sha256Words (strBytes s))

/-! ### Digest helper: `AuditLogger._hash`

```js
_hash(data) {
  if (!data) return null;
  return createHash('sha256').update(data).digest('hex');
}
```
JS string falsiness (`!data`): true for null/undefined and for "". -/

/-- JS falsiness of a string value: the empty string is falsy. -/
def jsStrFalsy (s : String) : Bool := s.length == 0

/-- JS falsiness of a nullable string: null/undefined and "" are falsy. -/
def jsOptStrFalsy : Option String → Bool
  | none => true
  | some s => jsStrFalsy s

/-- JS `a || b` over nullable strings (b used when a is falsy). -/
def jsOrStr (a b : Option String) : Option String :=
  if jsOptStrFalsy a then b else a

/-- The audit logger's digest operation `AuditLogger._hash`: null for
falsy input, else the hex SHA-256 digest (no salt is involved). -/
def auditHash (data : Option String) : Option String :=
  if jsOptStrFalsy data then none
  else data.map sha256Hex

/-! ### `AuditLogger.log` and `PostgresClient.insertAuditLog` -/

/-- The request attributes read by the audit logger and the plugins
(`request.id`, `request.ip`, headers, body model, route url, start time). -/
structure JsRequest where
  id : String
  method : String
  url : String
  ip : String
  userAgent : Option String
  authorization : Option String
  xApiKey : Option String
  contentLength : Option Nat
  bodyModel : Option String
  routeUrl : Option String
  startTime : Nat
deriving DecidableEq, Repr

/-- The reply attributes read by the audit logger (`reply.statusCode` and
the serialized payload byte count, null when there is no payload). -/
structure JsReply where
  statusCode : Nat
  payloadBytes : Option Nat
deriving DecidableEq, Repr

/-- The options object passed to `AuditLogger.log` (the request's audit
context). Fields are nullable JS values; `none` stands for both absent and
null, which the `||` coercions in the source treat alike. -/
structure AuditOptions where
  is_blocked : Option Bool := none
  block_reason : Option String := none
  detected_issues_count : Option Nat := none
  security_confidence : Option Rat := none
  llm_provider : Option String := none
  llm_model : Option String := none
deriving DecidableEq, Repr

/-- API-key extraction shared by the audit logger and the rate-limit plugin:
`Authorization: Bearer ...` first, then `X-API-Key`, else null. -/
def extractApiKey (r : JsRequest) : Option String :=
  match r.authorization with
  | some auth =>
    if !jsStrFalsy auth && auth.startsWith "Bearer " then some (auth.drop 7)
    else match r.xApiKey with
      | some k => if !jsStrFalsy k then some k else none
      | none => none
  | none =>
    match r.xApiKey with
    | some k => if !jsStrFalsy k then some k else none
    | none => none

/-- One audit log entry as built by `AuditLogger.log`. The free-form
`metadata` object is modelled by its two fields set in the source
(`user_agent_truncated` and `request_path`); `options.metadata` is `{}`
everywhere in the gateway. -/
structure LogEntry where
  request_id : String
  timestamp : Nat
  method : String
  path : String
  client_ip_hash : Option String
  user_agent_hash : Option String
  api_key_hash : Option String
  request_size_bytes : Option Nat
  response_status : Nat
  response_size_bytes : Option Nat
  response_time_ms : Nat
  is_blocked : Bool
  block_reason : Option String
  detected_issues_count : Nat
  security_confidence : Option Rat
  llm_provider : Option String
  llm_model : Option String
  meta_user_agent_truncated : String
  meta_request_path : String
deriving DecidableEq, Repr

/-- JS `options.security_confidence || null`: the number 0 is falsy. -/
def jsOrNullNum (a : Option Rat) : Option Rat :=
  match a with
  | some x => if x = 0 then none else some x
  | none => none

/-- JS `n || null` for a nullable count: 0 is falsy. -/
def jsOrNullNat (a : Option Nat) : Option Nat :=
  match a with
  | some n => if n = 0 then none else some n
  | none => none

/-- The audit entry built by `AuditLogger.log(request, reply, options)`
(audit-logger module, lines 74-125), with `nowMs` standing for
`Date.now()` and the entry timestamp. -/
def buildLogEntry (nowMs : Nat) (r : JsRequest) (reply : JsReply)
    (o : AuditOptions) : LogEntry :=
  let apiKey := extractApiKey r
  { request_id := r.id
    timestamp := nowMs
    method := r.method
    path := r.url
    client_ip_hash := auditHash (some r.ip)
    user_agent_hash := auditHash (some (r.userAgent.getD ""))
    api_key_hash :=
      match apiKey with
      | some k => if !jsStrFalsy k then auditHash (some k) else none
      | none => none
    request_size_bytes := r.contentLength
    response_status := reply.statusCode
    response_size_bytes := reply.payloadBytes
    response_time_ms := nowMs - r.startTime
    is_blocked := (o.is_blocked.getD false)
    block_reason := jsOrStr o.block_reason none
    detected_issues_count := o.detected_issues_count.getD 0
    security_confidence := jsOrNullNum o.security_confidence
    llm_provider := jsOrStr o.llm_provider none
    llm_model := jsOrStr o.llm_model (jsOrStr r.bodyModel none)
    meta_user_agent_truncated := (r.userAgent.getD "").take 100
    meta_request_path := (jsOrStr r.routeUrl (some r.url)).getD r.url }

/-- The parameter tuple bound by `PostgresClient.insertAuditLog` (pg-client
module, lines 207-226), re-applying the `||` default coercions. -/
structure InsertRow where
  request_id : String
  timestamp : Nat
  method : String
  path : String
  client_ip_hash : Option String
  user_agent_hash : Option String
  api_key_hash : Option String
  request_size_bytes : Option Nat
  response_status : Nat
  response_size_bytes : Option Nat
  response_time_ms : Nat
  is_blocked : Bool
  block_reason : Option String
  detected_issues_count : Nat
  security_confidence : Option Rat
  llm_provider : Option String
  llm_model : Option String
  meta_user_agent_truncated : String
  meta_request_path : String
deriving DecidableEq, Repr

/-- The row parameters produced by `PostgresClient.insertAuditLog(logEntry)`. -/
def insertAuditLog (e : LogEntry) : InsertRow :=
  { request_id := e.request_id
    timestamp := e.timestamp
    method := e.method
    path := e.path
    client_ip_hash := e.client_ip_hash
    user_agent_hash := jsOrStr e.user_agent_hash none
    api_key_hash := jsOrStr e.api_key_hash none
    request_size_bytes := jsOrNullNat e.request_size_bytes
    response_status := e.response_status
    response_size_bytes := jsOrNullNat e.response_size_bytes
    response_time_ms := e.response_time_ms
    is_blocked := e.is_blocked
    block_reason := jsOrStr e.block_reason none
    detected_issues_count := e.detected_issues_count
    security_confidence := jsOrNullNum e.security_confidence
    llm_provider := jsOrStr e.llm_provider none
    llm_model := jsOrStr e.llm_model none
    meta_user_agent_truncated := e.meta_user_agent_truncated
    meta_request_path := e.meta_request_path }

/-! ### Rate limiter: `RateLimiter._checkBucket` and `checkLimit`

Redis counters are modelled as an association list of string keys to counts,
with a parallel expiry map. `INCR` creates the key at 1; `TTL` returns -1
for a key with no expiry; `EXPIRE` sets the expiry. The source issues
`pipe.incr(key); pipe.ttl(key)` atomically and then `expire` when the TTL
was -1. -/

/-- Redis counter state: counts and expiries per key. -/
structure RedisState where
  counts : List (String × Nat)
  ttls : List (String × Nat)
deriving DecidableEq, Repr

/-- Empty Redis state. -/
def RedisState.empty : RedisState := ⟨[], []⟩

/-- Set a key in an association list, in place when present. -/
def setAssoc (l : List (String × Nat)) (k : String) (v : Nat) :
    List (String × Nat) :=
  match l with
  | [] => [(k, v)]
  | (k', v') :: rest =>
    if k' = k then (k, v) :: rest else (k', v') :: setAssoc rest k v

/-- Current count of a key (0 when absent, like a fresh Redis key). -/
def RedisState.count (st : RedisState) (k : String) : Nat :=
  (st.counts.lookup k).getD 0

/-- Redis `INCR`: returns the updated state and the new value. -/
def redisIncr (st : RedisState) (k : String) : RedisState × Nat :=
  let v := st.count k + 1
  (⟨setAssoc st.counts k v, st.ttls⟩, v)

/-- Redis `TTL` of an existing key: -1 without expiry, else the expiry. -/
def redisTTL (st : RedisState) (k : String) : Int :=
  match st.ttls.lookup k with
  | some t => (t : Int)
  | none => -1

/-- Redis `EXPIRE key seconds`. -/
def redisExpire (st : RedisState) (k : String) (secs : Nat) : RedisState :=
  ⟨st.counts, setAssoc st.ttls k secs⟩

/-- The three tier configurations `(max, window)` of the rate limiter. -/
structure Limits where
  globalMax : Nat
  globalWindow : Nat
  ipMax : Nat
  ipWindow : Nat
  apiKeyMax : Nat
  apiKeyWindow : Nat
deriving DecidableEq, Repr

/-- Default tier configuration from the config module
(10000/3600 global, 100/3600 per IP, 1000/3600 per API key). -/
def defaultLimits : Limits := ⟨10000, 3600, 100, 3600, 1000, 3600⟩

/-- The bucket key `rate_limit:{type}:{identifier}:{windowStart}`. -/
def bucketKey (ty ident : String) (windowStart : Nat) : String :=
  s!"rate_limit:{ty}:{ident}:{windowStart}"

/-- One bucket check result (all fields concrete inside `_checkBucket`). -/
structure BucketCheck where
  allowed : Bool
  limit : Nat
  remaining : Nat
  reset : Nat
  retryAfter : Option Nat
  type : String
deriving DecidableEq, Repr

/-- `RateLimiter._checkBucket(type, identifier, limit)` at Unix second
`now`: atomic increment plus TTL read, expiry set on first touch, then the
fixed-window decision. `Math.max(0, max - count)` is Nat subtraction. -/
def checkBucket (st : RedisState) (ty ident : String) (max window now : Nat) :
    RedisState × BucketCheck :=
  let windowStart := now - now % window
  let key := bucketKey ty ident windowStart
  let inc := redisIncr st key
  let st1 := inc.1
  let currentCount := inc.2
  let ttl := redisTTL st1 key
  let st2 := if ttl = -1 then redisExpire st1 key window else st1
  let allowed := currentCount ≤ max
  let reset := windowStart + window
  ( st2
  , { allowed := allowed
      limit := max
      remaining := max - currentCount
      reset := reset
      retryAfter := if allowed then none else some (reset - now)
      type := ty } )

/-- The decision returned by `checkLimit`; every field is nullable because
the disabled and fail-open branches return nulls. -/
structure RateDecision where
  allowed : Bool
  limit : Option Nat
  remaining : Option Nat
  reset : Option Nat
  retryAfter : Option Nat
  type : Option String
deriving DecidableEq, Repr

/-- A tier decision promoted to the `checkLimit` result shape. -/
def BucketCheck.toDecision (b : BucketCheck) : RateDecision :=
  ⟨b.allowed, some b.limit, some b.remaining, some b.reset, b.retryAfter,
   some b.type⟩

/-- The all-null allow decision of the disabled and fail-open branches. -/
def allowAllDecision : RateDecision := ⟨true, none, none, none, none, none⟩

/-- `RateLimiter.checkLimit({ip, apiKey})` at Unix second `now`: global tier,
then per-IP, then per-API-key when a key is presented (JS truthiness: an
empty-string key is not presented); the first denying tier returns
immediately, otherwise the most specific evaluated tier's decision is
returned. Transport errors (the fail-open catch) are outside this model. -/
def checkLimit (cfg : Limits) (enabled : Bool) (st : RedisState) (now : Nat)
    (ip : String) (apiKey : Option String) : RedisState × RateDecision :=
  if !enabled then (st, allowAllDecision)
  else
    let gRes := checkBucket st "global" "all" cfg.globalMax cfg.globalWindow now
    if !gRes.2.allowed then (gRes.1, gRes.2.toDecision)
    else
      let iRes := checkBucket gRes.1 "ip" ip cfg.ipMax cfg.ipWindow now
      if !iRes.2.allowed then (iRes.1, iRes.2.toDecision)
      else
        match apiKey with
        | some k =>
          if !jsStrFalsy k then
            let aRes := checkBucket iRes.1 "apikey" k cfg.apiKeyMax cfg.apiKeyWindow now
            (aRes.1, aRes.2.toDecision)
          else (iRes.1, iRes.2.toDecision)
        | none => (iRes.1, iRes.2.toDecision)

/-! ### Request pipeline: request-id, rate-limit and audit hooks composed

Hook order from the server setup: request-id, rate-limit `onRequest`,
audit-log `onRequest` (initializes `request.auditContext`), route handler,
audit-log `onResponse` (calls `AuditLogger.log(request, reply,
request.auditContext || {})`). A reply sent from the rate-limit hook skips
the later `onRequest` hooks and the handler, but the `onResponse` audit
hook still runs, with `request.auditContext` undefined. `/health` and
`/ready` skip rate limiting; `/health` also skips auditing. -/

/-- The audit context as initialized by the audit-log plugin's `onRequest`
hook. -/
def initAuditContext : AuditOptions :=
  { is_blocked := some false
    block_reason := none
    detected_issues_count := some 0
    security_confidence := none
    llm_provider := none
    llm_model := none }

/-- Observable outcome of one request through the gateway: response status,
the four rate-limit response headers, the error body type, and the audit
entry passed to the store (none when auditing is skipped). -/
structure HandledRequest where
  status : Nat
  limitHeader : Option Nat
  remainingHeader : Option Nat
  resetHeader : Option Nat
  retryAfterHeader : Option Nat
  errorType : Option String
  audit : Option LogEntry
deriving DecidableEq, Repr

/-- One request through the composed hooks at millisecond clock `nowMs`
(the limiter sees `Math.floor(Date.now() / 1000)`). `handlerStatus` is the
status the route handler would produce when admission succeeds; handlers
other than the chat verdict branch leave the audit context at its
initialized value, which is what is modelled here (the chat verdict branch
is modelled separately by `chatVerdictStep`). The reply object seen by the
audit logger carries no `payload` field, so its size is null. -/
def handleRequest (cfg : Limits) (rlEnabled : Bool) (st : RedisState)
    (nowMs : Nat) (r : JsRequest) (handlerStatus : Nat) :
    RedisState × HandledRequest :=
  if r.url = "/health" || r.url = "/ready" then
    ( st
    , { status := handlerStatus
        limitHeader := none, remainingHeader := none, resetHeader := none
        retryAfterHeader := none, errorType := none
        audit :=
          if r.url = "/health" then none
          else some (buildLogEntry nowMs r ⟨handlerStatus, none⟩ initAuditContext) } )
  else
    let apiKey := extractApiKey r
    let res := checkLimit cfg rlEnabled st (nowMs / 1000) r.ip apiKey
    let d := res.2
    if !d.allowed then
      ( res.1
      , { status := 429
          limitHeader := d.limit, remainingHeader := d.remaining
          resetHeader := d.reset
          retryAfterHeader := jsOrNullNat d.retryAfter
          errorType := some "RateLimitExceeded"
          audit := some (buildLogEntry nowMs r ⟨429, none⟩ {}) } )
    else
      ( res.1
      , { status := handlerStatus
          limitHeader := d.limit, remainingHeader := d.remaining
          resetHeader := d.reset
          retryAfterHeader := none, errorType := none
          audit := some (buildLogEntry nowMs r ⟨handlerStatus, none⟩ initAuditContext) } )

/-! ### Readiness route `/ready` (readiness module, Phase 3.1 revision)

The analyzer client loads the proto with `enums: String`, so the
deserialized `HealthCheckResponse.status` field is the enum NAME as a
string (for a serving analyzer, `"SERVING"`). The handler's check
`healthResult && healthResult.status === 1` is therefore a JS strict
equality between a string and the number 1, and `===` across different
runtime types is false. -/

/-- A JS runtime value as far as the readiness check needs: a string or a
number. -/
inductive JsVal where
  | str : String → JsVal
  | num : Nat → JsVal
deriving DecidableEq, Repr

/-- JS strict equality `===`: values of different runtime types are never
equal; same-typed values compare by value. -/
def jsStrictEq : JsVal → JsVal → Bool
  | JsVal.str a, JsVal.str b => a == b
  | JsVal.num a, JsVal.num b => a == b
  | _, _ => false

/-- The analyzer health-check response object as deserialized by the
client: under `enums: String` the `status` field holds the enum name. -/
structure HealthResult where
  status : String
deriving DecidableEq, Repr

/-- Dependency behaviour for one readiness probe: the analyzer
health-check result (`none` when the RPC throws), the Redis health-check
boolean, and the actual PostgreSQL health, which the handler never
consults. -/
structure ReadyDeps where
  analyzerResult : Option HealthResult
  redisHealthy : Bool
  postgresHealthy : Bool
deriving DecidableEq, Repr

/-- The per-dependency booleans in the response body. -/
structure ReadyChecks where
  analyzer : Bool
  redis : Bool
  postgres : Bool
deriving DecidableEq, Repr

/-- The `checks` object: `checks.analyzer` is
`healthResult && healthResult.status === 1` — a strict equality between
the string-valued status and the number 1; Redis from its health check;
`checks.postgres = true` hard-coded (`Mock: Always true until Phase
3.2`). -/
def readyChecks (d : ReadyDeps) : ReadyChecks :=
  { analyzer := match d.analyzerResult with
      | some r => jsStrictEq (JsVal.str r.status) (JsVal.num 1)
      | none => false
    redis := d.redisHealthy
    postgres := true }

/-- The `/ready` response status: 200 when every entry of `checks` is true,
else 503. -/
def readyStatus (d : ReadyDeps) : Nat :=
  let c := readyChecks d
  if c.analyzer && c.redis && c.postgres then 200 else 503

/-! ### Chat verdict branch (chat-completions route, Phase 2.3 revision) -/

/-- One detected issue of the analyzer verdict (`start`/`end` are renamed
`startPos`/`endPos`; `end` is reserved in Lean). -/
structure DetectedIssue where
  type : String
  text : String
  startPos : Nat
  endPos : Nat
  confidence : Rat
deriving DecidableEq, Repr

/-- The analyzer `CheckContent` response as consumed by the route. -/
structure AnalysisResult where
  is_safe : Bool
  redacted_text : Option String
  detected_issues : List DetectedIssue
  confidence_score : Rat
deriving DecidableEq, Repr

/-- Issue as re-formatted for the 403 response body. -/
structure IssueOut where
  type : String
  text : String
  posStart : Nat
  posEnd : Nat
  confidence : Rat
deriving DecidableEq, Repr

/-- The response mapping `issue => {type, text, position, confidence}`. -/
def formatIssue (i : DetectedIssue) : IssueOut :=
  ⟨i.type, i.text, i.startPos, i.endPos, i.confidence⟩

/-- Observable result of the verdict branch of the chat route. -/
structure ChatVerdictResponse where
  status : Nat
  errorType : Option String
  detected_issues : List IssueOut
  confidence_score : Option Rat
  redacted_preview : Option String
deriving DecidableEq, Repr

/-- The `is_safe` branch of the chat-completions handler: on an unsafe
verdict, update the audit context via `setAuditContext` and answer 403 with
the issues and `redacted_text?.substring(0, 100)`; on a safe verdict leave
the context alone and answer the 501 placeholder. -/
def chatVerdictStep (ctx : AuditOptions) (res : AnalysisResult) :
    AuditOptions × ChatVerdictResponse :=
  if !res.is_safe then
    ( { ctx with
        is_blocked := some true
        block_reason := some "CONTENT_POLICY_VIOLATION"
        detected_issues_count := some res.detected_issues.length
        security_confidence := some res.confidence_score }
    , { status := 403
        errorType := some "ContentPolicyViolation"
        detected_issues := res.detected_issues.map formatIssue
        confidence_score := some res.confidence_score
        redacted_preview := res.redacted_text.map fun t => t.take 100 } )
  else
    (ctx, ⟨501, some "NotImplementedError", [], none, none⟩)

/-! ### Analyzer RPC client: `AnalyzerClient.checkContent` retry loop -/

/-- gRPC status codes distinguished by the retry loop. -/
inductive GrpcErrorCode where
  | invalidArgument : GrpcErrorCode
  | unavailable : GrpcErrorCode
  | deadlineExceeded : GrpcErrorCode
  | otherCode : Nat → GrpcErrorCode
deriving DecidableEq, Repr

/-- Outcome of a single RPC attempt. -/
inductive AttemptOutcome where
  | success : AnalysisResult → AttemptOutcome
  | failure : GrpcErrorCode → AttemptOutcome
deriving DecidableEq, Repr

/-- Result surfaced by `checkContent`: the resolved response or the thrown
error. -/
inductive CallResult where
  | ok : AnalysisResult → CallResult
  | error : GrpcErrorCode → CallResult
deriving DecidableEq, Repr

/-- Observable trace of one `checkContent` call: the surfaced result, the
number of attempts issued, and the backoff sleeps (milliseconds, in order). -/
structure CallTrace where
  result : CallResult
  attemptsMade : Nat
  sleepsMs : List Nat
deriving DecidableEq, Repr

/-- The retry loop of `checkContent`, recursing on the number of attempts
still available (`maxRetries + 1` at entry, so the fuel-0 case is
unreachable). An `INVALID_ARGUMENT` failure is thrown immediately; any
other failure sleeps `Math.pow(2, attempt) * 1000` ms before the next
attempt while attempts remain, and the last error is thrown once they run
out. -/
def checkContentLoop (outcomes : Nat → AttemptOutcome) :
    Nat → List Nat → Nat → CallTrace
  | attempt, sleeps, 0 =>
    ⟨CallResult.error (GrpcErrorCode.otherCode 0), attempt, sleeps⟩
  | attempt, sleeps, 1 =>
    match outcomes attempt with
    | .success r => ⟨CallResult.ok r, attempt + 1, sleeps⟩
    | .failure e => ⟨CallResult.error e, attempt + 1, sleeps⟩
  | attempt, sleeps, left + 2 =>
    match outcomes attempt with
    | .success r => ⟨CallResult.ok r, attempt + 1, sleeps⟩
    | .failure .invalidArgument =>
      ⟨CallResult.error GrpcErrorCode.invalidArgument, attempt + 1, sleeps⟩
    | .failure _ =>
      checkContentLoop outcomes (attempt + 1) (sleeps ++ [1000 * 2 ^ attempt]) (left + 1)

/-- `AnalyzerClient.checkContent` with per-attempt outcomes given by
`outcomes`: the loop `for (attempt = 0; attempt <= maxRetries; attempt++)`. -/
def checkContent (outcomes : Nat → AttemptOutcome) (maxRetries : Nat) :
    CallTrace :=
  checkContentLoop outcomes 0 [] (maxRetries + 1)

/-- Default retry count from the config module (`GRPC_MAX_RETRIES`, 3). -/
def defaultMaxRetries : Nat := 3

/-! ### `get_audit_stats` SQL routine

The statistics query aggregates over
`status_counts CROSS JOIN audit_logs WHERE audit_logs.timestamp` in range,
where `status_counts` is the per-status grouping of the rows in range; the
join therefore repeats every in-range row once per distinct status.
`block_rate`, `avg_response_time_ms` and `requests_by_status` are outside
this model (the latter's unqualified `response_status` reference is
ambiguous between the two join sides). -/

/-- One `audit_logs` row as read by `get_audit_stats`. -/
structure AuditRow where
  timestamp : Int
  is_blocked : Bool
  client_ip_hash : String
  response_status : Nat
deriving DecidableEq, Repr

/-- Rows with `timestamp >= s AND timestamp <= e`. -/
def rowsInRange (rows : List AuditRow) (s e : Int) : List AuditRow :=
  rows.filter fun r => decide (s ≤ r.timestamp) && decide (r.timestamp ≤ e)

/-- The distinct response statuses of the in-range rows (the grouping keys
of the `status_counts` subquery). -/
def statusBuckets (l : List AuditRow) : List Nat :=
  (l.map fun r => r.response_status).dedup

/-- The row set of `status_counts CROSS JOIN audit_logs` filtered to the
range: every in-range row paired with every distinct status. -/
def statsJoinRows (rows : List AuditRow) (s e : Int) :
    List (Nat × AuditRow) :=
  (statusBuckets (rowsInRange rows s e)).flatMap fun st =>
    (rowsInRange rows s e).map fun r => (st, r)

/-- The aggregates of `get_audit_stats` modelled here. -/
structure AuditStats where
  total_requests : Nat
  blocked_requests : Nat
  unique_clients : Nat
deriving DecidableEq, Repr

/-- `get_audit_stats(p_start_time, p_end_time)`: `COUNT(*)`,
`SUM(CASE WHEN is_blocked THEN 1 ELSE 0 END)` and
`COUNT(DISTINCT client_ip_hash)` over the cross-joined row set. -/
def getAuditStats (rows : List AuditRow) (s e : Int) : AuditStats :=
  let pairs := statsJoinRows rows s e
  { total_requests := pairs.length
    blocked_requests := (pairs.filter fun p => p.2.is_blocked).length
    unique_clients := ((pairs.map fun p => p.2.client_ip_hash).dedup).length }

/-! ### Helper lemmas about the digest -/

/-- Lowercase hexadecimal characters. -/
def isHexLower (c : Char) : Bool :=
  (48 ≤ c.toNat && c.toNat ≤ 57) || (97 ≤ c.toNat && c.toNat ≤ 102)

theorem isHexLower_hexDigit : ∀ m : Fin 16, isHexLower (hexDigit m.val) = true := by
  decide

theorem wordHex_length (x : Nat) : (wordHex x).length = 8 := by
  have h : (wordHex x).length =
      ((List.range 8).map fun i => hexDigit (x / 16 ^ (7 - i) % 16)).length := rfl
  rw [h]; simp

theorem wordHex_all_hex (x : Nat) : (wordHex x).data.all isHexLower = true := by
  have h : (wordHex x).data =
      (List.range 8).map fun i => hexDigit (x / 16 ^ (7 - i) % 16) := rfl
  rw [h]
  apply List.all_eq_true.mpr
  intro c hc
  simp only [List.mem_map, List.mem_range] at hc
  obtain ⟨i, _, rfl⟩ := hc
  exact isHexLower_hexDigit ⟨x / 16 ^ (7 - i) % 16, Nat.mod_lt _ (by norm_num)⟩

theorem sha256Hex_length (s : String) : (sha256Hex s).length = 64 := by
  show (hash8Hex (sha256Words (strBytes s))).length = 64
  unfold hash8Hex
  simp [String.length_append, wordHex_length]

theorem sha256Hex_all_hex (s : String) : (sha256Hex s).data.all isHexLower = true := by
  show (hash8Hex (sha256Words (strBytes s))).data.all isHexLower = true
  unfold hash8Hex
  simp [String.data_append, List.all_append, wordHex_all_hex]

/-- A nullable column value that is either null or a 64-character lowercase
hex digest. -/
def optIsNullOr64Hex (v : Option String) : Bool :=
  match v with
  | none => true
  | some d => d.length == 64 && d.data.all isHexLower

theorem optIsNullOr64Hex_auditHash (d : Option String) :
    optIsNullOr64Hex (auditHash d) = true := by
  cases d with
  | none => rfl
  | some s =>
    unfold auditHash
    by_cases h : jsOptStrFalsy (some s) = true
    · simp [h, optIsNullOr64Hex]
    · simp only [Bool.not_eq_true] at h
      simp [h, optIsNullOr64Hex, sha256Hex_length, sha256Hex_all_hex]

/-! ### Claim C4: digest behaviour -/

/-- Claim C4, counterexample to `digest(null) ≠ digest("")`: `_hash` maps
both null and the empty string to the same result, null, because
`!data` is true for both. -/
theorem digest_null_equals_empty : auditHash none = auditHash (some "") := rfl

/-- Claim C4 (amended): the digest is deterministic (it is a pure function
of its input), returns a 64-character lowercase-hex string for every
non-null non-empty input, and returns the distinguished null value for null
and for the empty string; null input is therefore distinguishable from any
present value but NOT from the empty string, since
`digest(null) = digest("") = null`. -/
theorem digest_contract :
    (∀ (c : Char) (cs : List Char),
        auditHash (some (String.mk (c :: cs)))
          = some (sha256Hex (String.mk (c :: cs)))) ∧
    (∀ s : String,
        (sha256Hex s).length = 64 ∧ (sha256Hex s).data.all isHexLower = true) ∧
    auditHash none = none ∧ auditHash (some "") = none := by
  refine ⟨?_, fun s => ⟨sha256Hex_length s, sha256Hex_all_hex s⟩, rfl, rfl⟩
  intro c cs
  have hl : (String.mk (c :: cs)).length = cs.length + 1 := rfl
  have h : jsOptStrFalsy (some (String.mk (c :: cs))) = false := by
    simp [jsOptStrFalsy, jsStrFalsy, hl]
  simp [auditHash, h]

/-! ### Claim C1: what the persisted audit row contains -/

/-- Contiguous-substring test: `needle` occurs inside `hay`. -/
def strContainsSub (hay needle : String) : Bool :=
  hay.data.tails.any fun t => needle.data.isPrefixOf t

/-- The raw identifiers of a request: IP, user-agent (when present) and the
extracted API key (when present). -/
def rawIdentifiers (r : JsRequest) : List String :=
  r.ip :: (r.userAgent.toList ++ (extractApiKey r).toList)

/-- Every string-valued column of an audit entry, the free-form metadata
fields included. -/
def entryColumnStrings (e : LogEntry) : List String :=
  [e.request_id, e.method, e.path] ++
  e.client_ip_hash.toList ++ e.user_agent_hash.toList ++
  e.api_key_hash.toList ++ e.block_reason.toList ++
  e.llm_provider.toList ++ e.llm_model.toList ++
  [e.meta_user_agent_truncated, e.meta_request_path]

/-- Whether some column of the audit entry built by `AuditLogger.log`
contains some raw identifier of the request as a substring. -/
def entryLeaksRaw (nowMs : Nat) (r : JsRequest) (reply : JsReply)
    (o : AuditOptions) : Bool :=
  (entryColumnStrings (buildLogEntry nowMs r reply o)).any fun col =>
    (rawIdentifiers r).any fun raw => strContainsSub col raw

/-- A concrete request: plain POST with a user-agent and no API key. -/
def cexRequest : JsRequest :=
  { id := "req-1", method := "POST", url := "/v1/chat/completions"
    ip := "203.0.113.7", userAgent := some "Mozilla/5.0"
    authorization := none, xApiKey := none, contentLength := some 42
    bodyModel := some "gpt-4", routeUrl := none, startTime := 1000 }

set_option maxHeartbeats 4000000 in
/-- Claim C1, counterexample: the audit row for `cexRequest` contains a raw
identifier — the metadata column `user_agent_truncated` holds the raw
user-agent string `Mozilla/5.0` (the first 100 characters of it), which is
also a substring of an original input. -/
theorem audit_metadata_leaks_user_agent :
    entryLeaksRaw 1500 cexRequest ⟨403, none⟩ {} = true ∧
    (buildLogEntry 1500 cexRequest ⟨403, none⟩ {}).meta_user_agent_truncated
      = "Mozilla/5.0" := by
  constructor
  · decide
  · decide

/-- Claim C1 (amended): in every audit entry built by `AuditLogger.log`,
the three identifier columns `client_ip_hash`, `user_agent_hash` and
`api_key_hash` hold either null or a 64-character hex SHA-256 digest (the
digest is unsalted, contrary to the spec's "salted"), but the free-form
metadata column stores the first 100 characters of the RAW user-agent
string under `user_agent_truncated`, so the row is not free of raw
identifiers. -/
theorem audit_identifier_columns_hashed (nowMs : Nat) (r : JsRequest)
    (reply : JsReply) (o : AuditOptions) :
    optIsNullOr64Hex (buildLogEntry nowMs r reply o).client_ip_hash = true ∧
    optIsNullOr64Hex (buildLogEntry nowMs r reply o).user_agent_hash = true ∧
    optIsNullOr64Hex (buildLogEntry nowMs r reply o).api_key_hash = true ∧
    (buildLogEntry nowMs r reply o).meta_user_agent_truncated
      = (r.userAgent.getD "").take 100 := by
  simp only [buildLogEntry]
  refine ⟨optIsNullOr64Hex_auditHash _, optIsNullOr64Hex_auditHash _, ?_, trivial⟩
  cases extractApiKey r with
  | none => rfl
  | some k =>
    by_cases hk : jsStrFalsy k = true
    · simp [hk, optIsNullOr64Hex]
    · simp only [Bool.not_eq_true] at hk
      simp [hk]
      exact optIsNullOr64Hex_auditHash (some k)

/-! ### Claim C10: falsy-to-default coercions in the audit path -/

/-- Claim C10 (confirmed): a `security_confidence` option equal to the
number 0 is persisted as null by the `options.security_confidence || null`
coercion in `AuditLogger.log` (and again in `insertAuditLog`), so a zero
confidence is indistinguishable from an absent one; likewise a 0
`detected_issues_count` equals the absent default 0, an empty-string
`block_reason` becomes null, and a false `is_blocked` equals the absent
default false. -/
theorem audit_falsy_coercions (nowMs : Nat) (r : JsRequest) (reply : JsReply)
    (o : AuditOptions) :
    (insertAuditLog (buildLogEntry nowMs r reply
        { o with security_confidence := some 0 })
      = insertAuditLog (buildLogEntry nowMs r reply
        { o with security_confidence := none })) ∧
    (insertAuditLog (buildLogEntry nowMs r reply
        { o with security_confidence := some 0 })).security_confidence = none ∧
    (insertAuditLog (buildLogEntry nowMs r reply
        { o with detected_issues_count := some 0 })
      = insertAuditLog (buildLogEntry nowMs r reply
        { o with detected_issues_count := none })) ∧
    (insertAuditLog (buildLogEntry nowMs r reply
        { o with block_reason := some "" })
      = insertAuditLog (buildLogEntry nowMs r reply
        { o with block_reason := none })) ∧
    (insertAuditLog (buildLogEntry nowMs r reply
        { o with is_blocked := some false })
      = insertAuditLog (buildLogEntry nowMs r reply
        { o with is_blocked := none })) := by
  refine ⟨?_, ?_, ?_, ?_, ?_⟩ <;>
    simp [buildLogEntry, insertAuditLog, jsOrNullNum, jsOrNullNat, jsOrStr,
      jsOptStrFalsy, jsStrFalsy]

/-! ### Claim C5: unsafe verdict handling in the chat route -/

/-- Claim C5 (confirmed): for every analyzer verdict with `is_safe = false`
the chat route answers 403 `ContentPolicyViolation` with the formatted
issue list, the verdict confidence, and the redacted preview truncated to
100 characters, and updates the audit context to blocked with reason
`CONTENT_POLICY_VIOLATION` (the source's rendering of the spec's
`content-policy-violation` enum value), the issue count and the verdict
confidence. -/
theorem chat_unsafe_verdict (ctx : AuditOptions) (res : AnalysisResult) :
    (chatVerdictStep ctx { res with is_safe := false }).2.status = 403 ∧
    (chatVerdictStep ctx { res with is_safe := false }).2.errorType
      = some "ContentPolicyViolation" ∧
    (chatVerdictStep ctx { res with is_safe := false }).2.detected_issues
      = res.detected_issues.map formatIssue ∧
    (chatVerdictStep ctx { res with is_safe := false }).2.confidence_score
      = some res.confidence_score ∧
    (chatVerdictStep ctx { res with is_safe := false }).2.redacted_preview
      = res.redacted_text.map (fun t => t.take 100) ∧
    (chatVerdictStep ctx { res with is_safe := false }).1.is_blocked
      = some true ∧
    (chatVerdictStep ctx { res with is_safe := false }).1.block_reason
      = some "CONTENT_POLICY_VIOLATION" ∧
    (chatVerdictStep ctx { res with is_safe := false }).1.detected_issues_count
      = some res.detected_issues.length ∧
    (chatVerdictStep ctx { res with is_safe := false }).1.security_confidence
      = some res.confidence_score := by
  simp [chatVerdictStep]

/-! ### Claim C6: analyzer retry contract -/

theorem checkContentLoop_attempts_le (outcomes : Nat → AttemptOutcome) :
    ∀ (left attempt : Nat) (sleeps : List Nat),
      (checkContentLoop outcomes attempt sleeps left).attemptsMade ≤ attempt + left := by
  intro left
  induction left with
  | zero => intro attempt sleeps; simp [checkContentLoop]
  | succ n ih =>
    intro attempt sleeps
    cases n with
    | zero =>
      cases h : outcomes attempt <;> simp [checkContentLoop, h]
    | succ m =>
      cases h : outcomes attempt with
      | success r => simp [checkContentLoop, h]
      | failure e =>
        cases e with
        | invalidArgument => simp [checkContentLoop, h]
        | unavailable =>
          have := ih (attempt + 1) (sleeps ++ [1000 * 2 ^ attempt])
          simp only [checkContentLoop, h]
          omega
        | deadlineExceeded =>
          have := ih (attempt + 1) (sleeps ++ [1000 * 2 ^ attempt])
          simp only [checkContentLoop, h]
          omega
        | otherCode c =>
          have := ih (attempt + 1) (sleeps ++ [1000 * 2 ^ attempt])
          simp only [checkContentLoop, h]
          omega

theorem checkContentLoop_all_fail (e : GrpcErrorCode)
    (hne : e ≠ GrpcErrorCode.invalidArgument) :
    ∀ (left attempt : Nat) (sleeps : List Nat),
      checkContentLoop (fun _ => AttemptOutcome.failure e) attempt sleeps (left + 1)
        = ⟨CallResult.error e, attempt + left + 1,
            sleeps ++ (List.range left).map fun k => 1000 * 2 ^ (attempt + k)⟩ := by
  intro left
  induction left with
  | zero => intro attempt sleeps; simp [checkContentLoop]
  | succ m ih =>
    intro attempt sleeps
    have step : checkContentLoop (fun _ => AttemptOutcome.failure e) attempt sleeps (m + 2)
        = checkContentLoop (fun _ => AttemptOutcome.failure e) (attempt + 1)
            (sleeps ++ [1000 * 2 ^ attempt]) (m + 1) := by
      cases e with
      | invalidArgument => exact absurd rfl hne
      | unavailable => simp [checkContentLoop]
      | deadlineExceeded => simp [checkContentLoop]
      | otherCode c => simp [checkContentLoop]
    rw [step, ih (attempt + 1) (sleeps ++ [1000 * 2 ^ attempt])]
    have hfun : ((fun k => 1000 * 2 ^ (attempt + k)) ∘ Nat.succ)
        = fun k => 1000 * 2 ^ (attempt + 1 + k) := by
      funext k
      show 1000 * 2 ^ (attempt + (k + 1)) = 1000 * 2 ^ (attempt + 1 + k)
      have h : attempt + (k + 1) = attempt + 1 + k := by omega
      rw [h]
    have hmap : (List.range (m + 1)).map (fun k => 1000 * 2 ^ (attempt + k))
        = 1000 * 2 ^ attempt ::
            (List.range m).map fun k => 1000 * 2 ^ (attempt + 1 + k) := by
      rw [List.range_succ_eq_map, List.map_cons, List.map_map, hfun]
      simp
    have hatt : attempt + 1 + m + 1 = attempt + (m + 1) + 1 := by omega
    rw [hmap, hatt, List.append_assoc]
    rfl

theorem checkContent_invalid_immediate (outcomes : Nat → AttemptOutcome)
    (N : Nat)
    (h : outcomes 0 = AttemptOutcome.failure GrpcErrorCode.invalidArgument) :
    checkContent outcomes N
      = ⟨CallResult.error GrpcErrorCode.invalidArgument, 1, []⟩ := by
  cases N with
  | zero => simp [checkContent, checkContentLoop, h]
  | succ n => simp [checkContent, checkContentLoop, h]

/-- Claim C6 (confirmed): `checkContent` makes at most `1 + N` attempts
(`N = maxRetries`, default 3); an `INVALID_ARGUMENT` error on the first
attempt is surfaced immediately with no retry and no sleep; when every
attempt fails with `UNAVAILABLE` or `DEADLINE_EXCEEDED` the client retries
through all `1 + N` attempts, sleeping `1s * 2^k` before re-issue `k`
(sleeps `[1000*2^0, ..., 1000*2^(N-1)]` ms), and surfaces the last error. -/
theorem analyzer_retry_contract (N : Nat) (e : GrpcErrorCode)
    (he : e = GrpcErrorCode.unavailable ∨ e = GrpcErrorCode.deadlineExceeded) :
    (∀ outcomes : Nat → AttemptOutcome,
        (checkContent outcomes N).attemptsMade ≤ 1 + N) ∧
    (∀ outcomes : Nat → AttemptOutcome,
        outcomes 0 = AttemptOutcome.failure GrpcErrorCode.invalidArgument →
        checkContent outcomes N
          = ⟨CallResult.error GrpcErrorCode.invalidArgument, 1, []⟩) ∧
    checkContent (fun _ => AttemptOutcome.failure e) N
      = ⟨CallResult.error e, 1 + N, (List.range N).map fun k => 1000 * 2 ^ k⟩ := by
  have hne : e ≠ GrpcErrorCode.invalidArgument := by
    rcases he with h | h <;> subst h <;> simp
  refine ⟨fun outcomes => ?_, fun outcomes h => checkContent_invalid_immediate outcomes N h, ?_⟩
  · have h2 := checkContentLoop_attempts_le outcomes (N + 1) 0 []
    simp only [checkContent] at h2 ⊢
    omega
  · have h3 := checkContentLoop_all_fail e hne N 0 []
    simp only [checkContent]
    rw [h3]
    simp only [CallTrace.mk.injEq, List.nil_append]
    refine ⟨trivial, by omega, ?_⟩
    simp

/-- Every attempt unavailable (analyzer outage). -/
def unavailAllOutcomes : Nat → AttemptOutcome :=
  fun _ => AttemptOutcome.failure GrpcErrorCode.unavailable

/-- First attempt rejected as invalid argument. -/
def invalidFirstOutcomes : Nat → AttemptOutcome :=
  fun _ => AttemptOutcome.failure GrpcErrorCode.invalidArgument

/-- Witness for `analyzer_retry_contract` at the default retry count 3 and
the `UNAVAILABLE` error: four attempts, sleeps 1s, 2s, 4s, last error
surfaced; an invalid-argument error surfaces after one attempt. -/
theorem analyzer_retry_contract_witness :
    (checkContent unavailAllOutcomes defaultMaxRetries).attemptsMade
      ≤ 1 + defaultMaxRetries ∧
    checkContent invalidFirstOutcomes defaultMaxRetries
      = ⟨CallResult.error GrpcErrorCode.invalidArgument, 1, []⟩ ∧
    checkContent (fun _ => AttemptOutcome.failure GrpcErrorCode.unavailable)
        defaultMaxRetries
      = ⟨CallResult.error GrpcErrorCode.unavailable, 1 + defaultMaxRetries,
          (List.range defaultMaxRetries).map fun k => 1000 * 2 ^ k⟩ :=
  have h := analyzer_retry_contract defaultMaxRetries GrpcErrorCode.unavailable
    (Or.inl rfl)
  ⟨h.1 unavailAllOutcomes, h.2.1 invalidFirstOutcomes rfl, h.2.2⟩

/-! ### Claim C7: global-tier short circuit -/

theorem lookup_setAssoc_ne (k k2 : String) (v : Nat)
    (h : k2 ≠ k) :
    ∀ l : List (String × Nat), (setAssoc l k v).lookup k2 = l.lookup k2 := by
  have hb : (k2 == k) = false := beq_eq_false_iff_ne.mpr h
  intro l
  induction l with
  | nil => simp [setAssoc, List.lookup, hb]
  | cons p rest ih =>
    obtain ⟨a, b⟩ := p
    by_cases hak : a = k
    · subst hak
      simp only [setAssoc, if_pos rfl]
      simp [List.lookup, hb]
    · simp only [setAssoc, if_neg hak]
      by_cases h2 : k2 = a
      · subst h2; simp [List.lookup]
      · simp [List.lookup, h2, ih]

theorem count_setAssoc_ne (st : RedisState) (k k2 : String) (v : Nat)
    (h : k2 ≠ k) :
    (RedisState.mk (setAssoc st.counts k v) st.ttls).count k2 = st.count k2 := by
  simp [RedisState.count, lookup_setAssoc_ne k k2 v h]

theorem checkBucket_snd (st : RedisState) (ty ident : String)
    (max window now : Nat) :
    (checkBucket st ty ident max window now).2 =
      { allowed := decide
          (st.count (bucketKey ty ident (now - now % window)) + 1 ≤ max)
        limit := max
        remaining :=
          max - (st.count (bucketKey ty ident (now - now % window)) + 1)
        reset := now - now % window + window
        retryAfter :=
          if st.count (bucketKey ty ident (now - now % window)) + 1 ≤ max
          then none else some (now - now % window + window - now)
        type := ty } := rfl

theorem checkBucket_fst_counts (st : RedisState) (ty ident : String)
    (max window now : Nat) :
    (checkBucket st ty ident max window now).1.counts =
      setAssoc st.counts (bucketKey ty ident (now - now % window))
        (st.count (bucketKey ty ident (now - now % window)) + 1) := by
  simp only [checkBucket, redisIncr]
  split <;> rfl

/-- Claim C7 (confirmed): when the global tier denies (its incremented
count exceeds `globalMax`), `checkLimit` returns immediately with
`allowed = false`, `limit = globalMax`, `remaining = 0`,
`reset = windowStart + windowSeconds` and `retryAfter = reset - now`, and
no counter other than the global bucket is touched — in particular neither
the per-caller nor the per-key counter is incremented. -/
theorem rate_limit_global_short_circuit (cfg : Limits) (st : RedisState)
    (now : Nat) (ip : String) (apiKey : Option String)
    (hdeny : cfg.globalMax
      < st.count (bucketKey "global" "all" (now - now % cfg.globalWindow)) + 1) :
    (checkLimit cfg true st now ip apiKey).2.allowed = false ∧
    (checkLimit cfg true st now ip apiKey).2.limit = some cfg.globalMax ∧
    (checkLimit cfg true st now ip apiKey).2.remaining = some 0 ∧
    (checkLimit cfg true st now ip apiKey).2.reset
      = some (now - now % cfg.globalWindow + cfg.globalWindow) ∧
    (checkLimit cfg true st now ip apiKey).2.retryAfter
      = some (now - now % cfg.globalWindow + cfg.globalWindow - now) ∧
    (checkLimit cfg true st now ip apiKey).2.type = some "global" ∧
    ∀ k2 : String,
      k2 ≠ bucketKey "global" "all" (now - now % cfg.globalWindow) →
      (checkLimit cfg true st now ip apiKey).1.count k2 = st.count k2 := by
  have hle : ¬ (st.count (bucketKey "global" "all"
      (now - now % cfg.globalWindow)) + 1 ≤ cfg.globalMax) := by omega
  have ha : (checkBucket st "global" "all" cfg.globalMax cfg.globalWindow
      now).2.allowed = false := by
    rw [checkBucket_snd]
    exact decide_eq_false hle
  have hck : checkLimit cfg true st now ip apiKey
      = ((checkBucket st "global" "all" cfg.globalMax cfg.globalWindow now).1,
         (checkBucket st "global" "all" cfg.globalMax cfg.globalWindow
           now).2.toDecision) := by
    simp [checkLimit, ha]
  rw [hck]
  refine ⟨?_, ?_, ?_, ?_, ?_, ?_, ?_⟩
  · rw [checkBucket_snd]; simp [BucketCheck.toDecision, hle]
  · rw [checkBucket_snd]; simp [BucketCheck.toDecision]
  · rw [checkBucket_snd]; simp [BucketCheck.toDecision]; omega
  · rw [checkBucket_snd]; simp [BucketCheck.toDecision]
  · rw [checkBucket_snd]; simp [BucketCheck.toDecision, if_neg hle]
  · rw [checkBucket_snd]; simp [BucketCheck.toDecision]
  intro k2 hk2
  have hc := checkBucket_fst_counts st "global" "all" cfg.globalMax
    cfg.globalWindow now
  have : (checkBucket st "global" "all" cfg.globalMax cfg.globalWindow
      now).1.count k2
      = (RedisState.mk (setAssoc st.counts
          (bucketKey "global" "all" (now - now % cfg.globalWindow))
          (st.count (bucketKey "global" "all"
            (now - now % cfg.globalWindow)) + 1)) st.ttls).count k2 := by
    simp [RedisState.count, hc]
  rw [this, count_setAssoc_ne st _ _ _ hk2]

/-- Witness for `rate_limit_global_short_circuit`: a global tier of max 0
denies the first request; the per-caller bucket stays untouched. -/
theorem rate_limit_global_short_circuit_witness :
    (checkLimit ⟨0, 60, 100, 3600, 1000, 3600⟩ true RedisState.empty 0
        "9.9.9.9" none).2.allowed = false ∧
    (checkLimit ⟨0, 60, 100, 3600, 1000, 3600⟩ true RedisState.empty 0
        "9.9.9.9" none).2.remaining = some 0 ∧
    (checkLimit ⟨0, 60, 100, 3600, 1000, 3600⟩ true RedisState.empty 0
        "9.9.9.9" none).1.count "rate_limit:ip:9.9.9.9:0"
      = RedisState.empty.count "rate_limit:ip:9.9.9.9:0" := by
  have h := rate_limit_global_short_circuit ⟨0, 60, 100, 3600, 1000, 3600⟩
    RedisState.empty 0 "9.9.9.9" none (by decide)
  exact ⟨h.1, h.2.2.1, h.2.2.2.2.2.2 "rate_limit:ip:9.9.9.9:0" (by decide)⟩

/-! ### Claim C2: gateway behaviour on a rate-limit denial -/

theorem checkLimit_denied_retryAfter (cfg : Limits) (st : RedisState)
    (now : Nat) (ip : String) (apiKey : Option String)
    (hg : 0 < cfg.globalWindow) (hi : 0 < cfg.ipWindow)
    (hk : 0 < cfg.apiKeyWindow)
    (hd : (checkLimit cfg true st now ip apiKey).2.allowed = false) :
    ∃ v, 0 < v ∧ (checkLimit cfg true st now ip apiKey).2.retryAfter = some v := by
  have hmg := Nat.mod_lt now hg
  have hmi := Nat.mod_lt now hi
  have hmk := Nat.mod_lt now hk
  have hlg := Nat.mod_le now cfg.globalWindow
  have hli := Nat.mod_le now cfg.ipWindow
  have hlk := Nat.mod_le now cfg.apiKeyWindow
  by_cases hga : (checkBucket st "global" "all" cfg.globalMax
      cfg.globalWindow now).2.allowed = true
  case neg =>
    rw [Bool.not_eq_true] at hga
    have hck : checkLimit cfg true st now ip apiKey
        = ((checkBucket st "global" "all" cfg.globalMax cfg.globalWindow
            now).1,
           (checkBucket st "global" "all" cfg.globalMax cfg.globalWindow
            now).2.toDecision) := by
      simp [checkLimit, hga]
    have hnle : ¬ (st.count (bucketKey "global" "all"
        (now - now % cfg.globalWindow)) + 1 ≤ cfg.globalMax) := by
      rw [checkBucket_snd] at hga
      simpa using hga
    refine ⟨now - now % cfg.globalWindow + cfg.globalWindow - now,
      by omega, ?_⟩
    rw [hck]
    rw [checkBucket_snd]
    simp [BucketCheck.toDecision, if_neg hnle]
  case pos =>
    by_cases hia : (checkBucket (checkBucket st "global" "all" cfg.globalMax
        cfg.globalWindow now).1 "ip" ip cfg.ipMax cfg.ipWindow
        now).2.allowed = true
    case neg =>
      rw [Bool.not_eq_true] at hia
      have hck : checkLimit cfg true st now ip apiKey
          = ((checkBucket (checkBucket st "global" "all" cfg.globalMax
              cfg.globalWindow now).1 "ip" ip cfg.ipMax cfg.ipWindow now).1,
             (checkBucket (checkBucket st "global" "all" cfg.globalMax
              cfg.globalWindow now).1 "ip" ip cfg.ipMax cfg.ipWindow
              now).2.toDecision) := by
        simp [checkLimit, hga, hia]
      have hnle : ¬ ((checkBucket st "global" "all" cfg.globalMax
          cfg.globalWindow now).1.count (bucketKey "ip" ip
            (now - now % cfg.ipWindow)) + 1 ≤ cfg.ipMax) := by
        rw [checkBucket_snd] at hia
        simpa using hia
      refine ⟨now - now % cfg.ipWindow + cfg.ipWindow - now, by omega, ?_⟩
      rw [hck, checkBucket_snd]
      simp [BucketCheck.toDecision, if_neg hnle]
    case pos =>
      cases hak : apiKey with
      | none =>
        exfalso
        have hck : checkLimit cfg true st now ip apiKey
            = ((checkBucket (checkBucket st "global" "all" cfg.globalMax
                cfg.globalWindow now).1 "ip" ip cfg.ipMax cfg.ipWindow
                now).1,
               (checkBucket (checkBucket st "global" "all" cfg.globalMax
                cfg.globalWindow now).1 "ip" ip cfg.ipMax cfg.ipWindow
                now).2.toDecision) := by
          simp [checkLimit, hga, hia, hak]
        rw [hck] at hd
        simp [BucketCheck.toDecision] at hd
        rw [hd] at hia
        exact Bool.false_ne_true hia
      | some k =>
        by_cases hkf : jsStrFalsy k = true
        case pos =>
          exfalso
          have hck : checkLimit cfg true st now ip apiKey
              = ((checkBucket (checkBucket st "global" "all" cfg.globalMax
                  cfg.globalWindow now).1 "ip" ip cfg.ipMax cfg.ipWindow
                  now).1,
                 (checkBucket (checkBucket st "global" "all" cfg.globalMax
                  cfg.globalWindow now).1 "ip" ip cfg.ipMax cfg.ipWindow
                  now).2.toDecision) := by
            simp [checkLimit, hga, hia, hak, hkf]
          rw [hck] at hd
          simp [BucketCheck.toDecision] at hd
          rw [hd] at hia
          exact Bool.false_ne_true hia
        case neg =>
          rw [Bool.not_eq_true] at hkf
          have hck : checkLimit cfg true st now ip apiKey
              = ((checkBucket (checkBucket (checkBucket st "global" "all"
                  cfg.globalMax cfg.globalWindow now).1 "ip" ip cfg.ipMax
                  cfg.ipWindow now).1 "apikey" k cfg.apiKeyMax
                  cfg.apiKeyWindow now).1,
                 (checkBucket (checkBucket (checkBucket st "global" "all"
                  cfg.globalMax cfg.globalWindow now).1 "ip" ip cfg.ipMax
                  cfg.ipWindow now).1 "apikey" k cfg.apiKeyMax
                  cfg.apiKeyWindow now).2.toDecision) := by
            simp [checkLimit, hga, hia, hak, hkf]
          rw [hck] at hd
          rw [hak] at hck
          rw [hck]
          simp only [BucketCheck.toDecision] at hd ⊢
          rw [checkBucket_snd] at hd ⊢
          simp only [decide_eq_false_iff_not] at hd
          refine ⟨now - now % cfg.apiKeyWindow + cfg.apiKeyWindow - now,
            by omega, ?_⟩
          simp [if_neg hd]

/-- Tier configuration with a zero global allowance, denying every request. -/
def denyAllLimits : Limits := ⟨0, 60, 100, 3600, 1000, 3600⟩

/-- Claim C2, counterexample: a request denied by the rate limiter is
answered 429, but its audit entry has `is_blocked = false` and
`block_reason = null` — the rate-limit hook sends the reply before the
audit hook initializes the context and never patches it, so the claim's
`is_blocked=true`/`block_reason=rate-limit` is false. -/
theorem rate_limited_audit_not_blocked :
    (handleRequest denyAllLimits true RedisState.empty 0 cexRequest 501).2.status
      = 429 ∧
    ((handleRequest denyAllLimits true RedisState.empty 0 cexRequest
        501).2.audit.map fun e => (e.is_blocked, e.block_reason))
      = some (false, none) := by
  constructor
  · decide
  · decide

/-- Claim C2 (amended): for every request outside `/health` and `/ready`
that the rate limiter denies (with positive tier windows), the gateway
responds 429 with the structured `RateLimitExceeded` error body and a
positive `Retry-After` header, and the audit entry recorded for the
request carries `response_status = 429` but `is_blocked = false` and
`block_reason = null`: no hook sets the audit patch on a rate-limit
denial. -/
theorem rate_limited_request_response (cfg : Limits) (st : RedisState)
    (nowMs : Nat) (r : JsRequest) (handlerStatus : Nat)
    (hg : 0 < cfg.globalWindow) (hi : 0 < cfg.ipWindow)
    (hk : 0 < cfg.apiKeyWindow)
    (hurl : (r.url = "/health" || r.url = "/ready") = false)
    (hd : (checkLimit cfg true st (nowMs / 1000) r.ip
        (extractApiKey r)).2.allowed = false) :
    (handleRequest cfg true st nowMs r handlerStatus).2.status = 429 ∧
    (handleRequest cfg true st nowMs r handlerStatus).2.errorType
      = some "RateLimitExceeded" ∧
    (∃ v, 0 < v ∧
      (handleRequest cfg true st nowMs r handlerStatus).2.retryAfterHeader
        = some v) ∧
    (handleRequest cfg true st nowMs r handlerStatus).2.audit
      = some (buildLogEntry nowMs r ⟨429, none⟩ {}) ∧
    (buildLogEntry nowMs r ⟨429, none⟩ {}).is_blocked = false ∧
    (buildLogEntry nowMs r ⟨429, none⟩ {}).block_reason = none ∧
    (buildLogEntry nowMs r ⟨429, none⟩ {}).response_status = 429 := by
  obtain ⟨v, hv, hra⟩ := checkLimit_denied_retryAfter cfg st (nowMs / 1000)
    r.ip (extractApiKey r) hg hi hk hd
  have hh : (handleRequest cfg true st nowMs r handlerStatus).2
      = { status := 429
          limitHeader := (checkLimit cfg true st (nowMs / 1000) r.ip
            (extractApiKey r)).2.limit
          remainingHeader := (checkLimit cfg true st (nowMs / 1000) r.ip
            (extractApiKey r)).2.remaining
          resetHeader := (checkLimit cfg true st (nowMs / 1000) r.ip
            (extractApiKey r)).2.reset
          retryAfterHeader := jsOrNullNat (checkLimit cfg true st
            (nowMs / 1000) r.ip (extractApiKey r)).2.retryAfter
          errorType := some "RateLimitExceeded"
          audit := some (buildLogEntry nowMs r ⟨429, none⟩ {}) } := by
    simp [handleRequest, hurl, hd]
  rw [hh]
  refine ⟨rfl, rfl, ⟨v, hv, ?_⟩, rfl, ?_, ?_, ?_⟩
  · rw [hra]
    simp [jsOrNullNat]
    omega
  · simp [buildLogEntry]
  · simp [buildLogEntry, jsOrStr, jsOptStrFalsy]
  · simp [buildLogEntry]

/-- Witness for `rate_limited_request_response`: the deny-all tier
configuration denies the first request. -/
theorem rate_limited_request_response_witness :
    (handleRequest denyAllLimits true RedisState.empty 0 cexRequest
        501).2.status = 429 ∧
    (handleRequest denyAllLimits true RedisState.empty 0 cexRequest
        501).2.errorType = some "RateLimitExceeded" ∧
    (∃ v, 0 < v ∧ (handleRequest denyAllLimits true RedisState.empty 0
        cexRequest 501).2.retryAfterHeader = some v) ∧
    (buildLogEntry 0 cexRequest ⟨429, none⟩ {}).is_blocked = false ∧
    (buildLogEntry 0 cexRequest ⟨429, none⟩ {}).block_reason = none := by
  have h := rate_limited_request_response denyAllLimits RedisState.empty 0
    cexRequest 501 (by decide) (by decide) (by decide) (by decide) (by decide)
  exact ⟨h.1, h.2.1, h.2.2.1, h.2.2.2.2.1, h.2.2.2.2.2.1⟩

/-! ### Claim C3: readiness endpoint -/

/-- Claim C3, counterexample: with every dependency healthy — the analyzer
health check returns `"SERVING"`, Redis healthy, PostgreSQL healthy —
`/ready` still returns 503, where the claim requires 200: the handler
compares the string-valued `status` (the `enums: String` deserialization
of the SERVING enum) with the number 1 via `===`, which is false. -/
theorem ready_never_200 :
    readyStatus ⟨some ⟨"SERVING"⟩, true, true⟩ = 503 ∧
    (ReadyDeps.mk (some ⟨"SERVING"⟩) true true).redisHealthy = true ∧
    (ReadyDeps.mk (some ⟨"SERVING"⟩) true true).postgresHealthy = true := by
  refine ⟨rfl, rfl, rfl⟩

/-- Claim C3 (amended): `GET /ready` returns 503 for every dependency
behaviour — it can never return 200 — because `checks.analyzer` is the
strict equality `healthResult.status === 1` between the string-valued
status and the number 1, false even for a serving analyzer. The body's
per-dependency booleans are `checks.analyzer` always false,
`checks.postgres` hard-coded true (the audit store's actual health is
never consulted), and `checks.redis` from the Redis health check. -/
theorem ready_always_503 (d : ReadyDeps) :
    readyStatus d = 503 ∧
    (readyChecks d).analyzer = false ∧
    (readyChecks d).postgres = true ∧
    (readyChecks d).redis = d.redisHealthy := by
  have ha : (readyChecks d).analyzer = false := by
    cases h : d.analyzerResult with
    | none => simp [readyChecks, h]
    | some r => simp [readyChecks, h, jsStrictEq]
  refine ⟨?_, ha, rfl, rfl⟩
  simp [readyStatus, ha]

/-! ### Claim C8: global-exhaustion scenario -/

/-- Tier configuration of the scenario: `global.max = 2`,
`global.window = 60`, other tiers at their defaults. -/
def scenarioLimits : Limits := ⟨2, 60, 100, 3600, 1000, 3600⟩

/-- A caller for the scenario: GET `/v1/models` (a 200 route), no API key. -/
def mkCaller (idv ipv : String) : JsRequest :=
  { id := idv, method := "GET", url := "/v1/models", ip := ipv
    userAgent := some "curl/8.0", authorization := none, xApiKey := none
    contentLength := none, bodyModel := none, routeUrl := none
    startTime := 0 }

/-- Run the three scenario requests back-to-back at the same clock,
threading the Redis counter state. -/
def scenario8 : List HandledRequest :=
  (([mkCaller "r1" "1.1.1.1", mkCaller "r2" "2.2.2.2",
     mkCaller "r3" "3.3.3.3"]).foldl
    (fun acc r =>
      let out := handleRequest scenarioLimits true acc.1 1000 r 200
      (out.1, acc.2 ++ [out.2]))
    ((RedisState.empty, []) : RedisState × List HandledRequest)).2

/-- Claim C8, counterexample: the `X-RateLimit-Remaining` values of the
three responses are 99, 99, 0 — not the claimed 1, 0, 0 — because an
allowed request returns the decision of the most specific evaluated tier
(per-caller, default max 100), not the configured global tier. -/
theorem scenario_remaining_header_values :
    scenario8.map (fun h => h.remainingHeader)
      = [some 99, some 99, some 0] ∧
    scenario8.map (fun h => h.remainingHeader)
      ≠ [some 1, some 0, some 0] := by
  constructor
  · decide
  · decide

/-- Claim C8 (amended): with `global.max=2, global.window=60` and the other
tiers at their defaults, three consecutive requests from three distinct
callers with no API key receive 200, 200, 429; the `X-RateLimit-Remaining`
headers are 99, 99, 0 (the per-caller tier's remaining on the allowed
responses); and the third response carries `Retry-After` 59 ≤ 60. -/
theorem scenario_rate_limit_exhaustion :
    scenario8.map (fun h => h.status) = [200, 200, 429] ∧
    scenario8.map (fun h => h.remainingHeader)
      = [some 99, some 99, some 0] ∧
    scenario8.map (fun h => h.retryAfterHeader)
      = [none, none, some 59] ∧ 59 ≤ 60 := by
  refine ⟨by decide, by decide, by decide, by decide⟩

/-! ### Claim C9: audit statistics -/

/-- Two in-range audit rows with distinct statuses: one blocked 403, one
allowed 200, from two distinct callers. -/
def statsRows : List AuditRow :=
  [⟨1, false, "h1", 200⟩, ⟨2, true, "h2", 403⟩]

/-- Claim C9 (code bug): over a range holding 2 rows (1 blocked, 2 callers,
2 distinct statuses), `get_audit_stats` returns `total_requests = 4` and
`blocked_requests = 2` — each aggregate is multiplied by the number of
distinct status buckets because the status-count subquery is cross-joined
with the in-range rows — while `unique_clients = 2` is unaffected
(`COUNT(DISTINCT ...)` collapses the duplication). -/
theorem audit_stats_cross_join_inflation :
    (rowsInRange statsRows 0 10).length = 2 ∧
    ((rowsInRange statsRows 0 10).filter fun r => r.is_blocked).length = 1 ∧
    (statusBuckets (rowsInRange statsRows 0 10)).length = 2 ∧
    getAuditStats statsRows 0 10 = ⟨4, 2, 2⟩ := by
  refine ⟨by decide, by decide, by decide, by decide⟩
